import Mathlib

/-!
Shallow embedding of the MFRC522 (I2C) MakeCode driver (namespace m5rfid).

The driver talks to the chip through register reads and writes.  We model the
chip side of each primitive operation as an explicit environment value:

* `TrxEnv` supplies, for one `transceiveData` call, the successive values the
  interrupt-request register yields while the engine polls, the error
  register, the FIFO level register, the FIFO byte stream and the control
  register.
* `CrcEnv` supplies the interrupt-request stream and the two CRC result
  registers for one `calculateCRC` call.
* `ReadEnv` supplies, per cascade level (1..3), the environments of the
  anticollision transceive, the CRC computation and the select transceive
  performed by `readUid`.

Byte values are modeled as `Nat`; the source masks with `& 0xFF` exactly where
we mask with `&&& 0xFF`.  The bounded polling loops of the source
(`while (i-- > 0)` with budgets 2000 and 500) become structural recursion on
an explicit fuel argument of the same size, and the returned outcomes are
instrumented with just enough bookkeeping (whether the FIFO was read, how
many polls happened) to make the control flow of the source observable.
-/

namespace M5Rfid

/-- PICC command byte for REQA. -/
def PICC_CMD_REQA : Nat := 0x26
/-- Select code, cascade level 1. -/
def PICC_CMD_SEL_CL1 : Nat := 0x93
/-- Select code, cascade level 2. -/
def PICC_CMD_SEL_CL2 : Nat := 0x95
/-- Select code, cascade level 3. -/
def PICC_CMD_SEL_CL3 : Nat := 0x97

/-- Result record of `transceiveData` as in the source:
a record of `back`, `validBits` and `status`. -/
structure TransceiveResult where
  back : List Nat
  validBits : Nat
  status : Bool
deriving DecidableEq, Repr

/-- Chip-side environment of one `transceiveData` call: `comIrq k` is the
value the interrupt-request register yields at the k-th poll iteration;
the remaining fields are the registers read after the poll loop. -/
structure TrxEnv where
  comIrq : Nat → Nat
  errorReg : Nat
  fifoLevel : Nat
  fifoData : Nat → Nat
  control : Nat

/-- Outcome of the bounded interrupt poll loop in `transceiveData`:
receive or idle interrupt seen (`done`), timer interrupt seen (`timedOut`),
or the iteration budget ran out (`exhausted`). -/
inductive PollOutcome where
  | done
  | timedOut
  | exhausted
deriving DecidableEq, Repr

/-- The poll loop of `transceiveData`: at iteration `k` read the
interrupt-request register; stop with `done` on a receive or idle bit
(mask 0x30), with `timedOut` on the timer bit (mask 0x01), with
`exhausted` when the fuel (2000 in the caller) runs out. -/
def pollIrq (irq : Nat → Nat) : Nat → Nat → PollOutcome
  | _, 0 => .exhausted
  | k, fuel + 1 =>
    let n := irq k
    if n &&& 0x30 ≠ 0 then .done
    else if n &&& 0x01 ≠ 0 then .timedOut
    else pollIrq irq (k + 1) fuel

/-- Model of `readFIFO(len)`: read `len` successive bytes from the FIFO data
register stream. -/
def readFIFO (data : Nat → Nat) (len : Nat) : List Nat :=
  (List.range len).map data

/-- The `transceiveData` result instrumented with whether the FIFO was
burst-read during the call. -/
structure TrxOutcome where
  res : TransceiveResult
  fifoRead : Bool
deriving DecidableEq, Repr

/-- Model of `transceiveData(send, txLastBits)`.  The register writes (flush FIFO,
load FIFO with `send`, bit framing, start command) have no effect on the
returned value, which is fully determined by the chip-side environment:
poll the interrupt-request register for up to 2000 iterations; on any
non-`done` outcome, or when the error register has one of the bits of
mask 0x13 set, return failure with empty response without touching the
FIFO; otherwise burst-read FIFO-level many bytes and report the low
3 bits of the control register as the valid-bit count. -/
def transceiveData (env : TrxEnv) (send : List Nat) (txLastBits : Nat) : TrxOutcome :=
  let _ := send
  let _ := txLastBits
  let status : Bool := pollIrq env.comIrq 0 2000 = PollOutcome.done
  let errorReg := env.errorReg
  if !status || (errorReg &&& 0x13 ≠ 0) then
    { res := { back := [], validBits := 0, status := false }, fifoRead := false }
  else
    let length := env.fifoLevel
    let result := readFIFO env.fifoData length
    let lastBits := env.control &&& 0x07
    { res := { back := result, validBits := lastBits, status := true }, fifoRead := true }

/-- Chip-side environment of one `calculateCRC` call. -/
structure CrcEnv where
  comIrq : Nat → Nat
  crcH : Nat
  crcL : Nat

/-- The completion poll loop of `calculateCRC`: read the interrupt-request
register until the CRC bit (mask 0x04) appears or the fuel (500 in the
caller) runs out; returns the number of reads performed and whether the
bit was observed. -/
def crcPoll (irq : Nat → Nat) : Nat → Nat → Nat × Bool
  | k, 0 => (k, false)
  | k, fuel + 1 =>
    let n := irq k
    if n &&& 0x04 ≠ 0 then (k + 1, true)
    else crcPoll irq (k + 1) fuel

/-- The `calculateCRC` result instrumented with the poll-loop bookkeeping. -/
structure CrcOutcome where
  polls : Nat
  flagSeen : Bool
  result : List Nat
deriving DecidableEq, Repr

/-- Model of `calculateCRC(data)`: flush FIFO, write `data`, start the CRC command,
poll the completion flag for at most 500 iterations, then read the two
result registers (high first) and return `[low, high]` regardless of
whether the flag was seen. -/
def calculateCRC (env : CrcEnv) (data : List Nat) : CrcOutcome :=
  let _ := data
  let p := crcPoll env.comIrq 0 500
  let h := env.crcH
  let l := env.crcL
  { polls := p.1, flagSeen := p.2, result := [l, h] }

/-- Model of `isNewCardPresent()`: a single REQA transceive with 7 valid bits;
true iff it succeeded and returned at least one byte. -/
def isNewCardPresent (env : TrxEnv) : Bool :=
  let res := (transceiveData env [PICC_CMD_REQA] 7).res
  res.status && decide (res.back.length > 0)

/-- Per-level chip-side environments of one `readUid` call: the
anticollision transceive, the CRC computation and the select transceive
performed at cascade level `l` draw their register values from
`anticolTrx l`, `crcEnv l` and `selectTrx l`. -/
structure ReadEnv where
  anticolTrx : Nat → TrxEnv
  crcEnv : Nat → CrcEnv
  selectTrx : Nat → TrxEnv

/-- The anticollision command of a cascade level: select code plus NVB 0x20
(the source builds `[]` for any other level, which the loop never reaches). -/
def cascadeCmd (cascadeLevel : Nat) : List Nat :=
  if cascadeLevel = 1 then [PICC_CMD_SEL_CL1, 0x20]
  else if cascadeLevel = 2 then [PICC_CMD_SEL_CL2, 0x20]
  else if cascadeLevel = 3 then [PICC_CMD_SEL_CL3, 0x20]
  else []

/-- The select command head of a cascade level: select code plus NVB 0x70. -/
def selectCmdBase (cascadeLevel : Nat) : List Nat :=
  if cascadeLevel = 1 then [PICC_CMD_SEL_CL1, 0x70]
  else if cascadeLevel = 2 then [PICC_CMD_SEL_CL2, 0x70]
  else if cascadeLevel = 3 then [PICC_CMD_SEL_CL3, 0x70]
  else []

/-- Which early `return false` of the cascade loop body fired: the
anticollision transceive failed or returned fewer than 5 bytes, the check
byte did not match, or the select transceive failed or returned no byte. -/
inductive FailReason where
  | anticol
  | bccMismatch
  | select
deriving DecidableEq, Repr

/-- Outcome of one iteration of the cascade loop body of `readUid`, up to
the SAK assignment: either one of its early `return false` paths fired, or
the select succeeded, yielding the masked 4-byte fragment and the new SAK. -/
inductive StepOutcome where
  | fail (reason : FailReason)
  | ok (clUid : List Nat) (sak : Nat)
deriving DecidableEq, Repr

/-- The anticollision transceive result observed at a cascade level. -/
def anticolResult (env : ReadEnv) (cascadeLevel : Nat) : TransceiveResult :=
  (transceiveData (env.anticolTrx cascadeLevel) (cascadeCmd cascadeLevel) 0).res

/-- The check byte of a 4-byte fragment as computed in the source:
XOR of the four masked bytes, masked. -/
def bccOf (clUid : List Nat) : Nat :=
  (clUid.getD 0 0 ^^^ clUid.getD 1 0 ^^^ clUid.getD 2 0 ^^^ clUid.getD 3 0) &&& 0xFF

/-- One iteration of the cascade loop body of `readUid` at `cascadeLevel`:
anticollision transceive (fail unless it succeeds with at least 5 bytes),
check-byte validation (fail on mismatch), build the full select command
with the CRC appended, select transceive (fail unless it succeeds with at
least 1 byte), and read the new SAK from its first response byte. -/
def cascadeStep (env : ReadEnv) (cascadeLevel : Nat) : StepOutcome :=
  let r := anticolResult env cascadeLevel
  if !r.status || r.back.length < 5 then .fail .anticol
  else
    let u := r.back
    let cl_uid := (List.range 4).map (fun i => u.getD i 0 &&& 0xFF)
    let bcc := bccOf cl_uid
    if (u.getD 4 0 &&& 0xFF) ≠ bcc then .fail .bccMismatch
    else
      let sel_cmd := selectCmdBase cascadeLevel ++ cl_uid ++ [bcc]
      let crc := (calculateCRC (env.crcEnv cascadeLevel) sel_cmd).result
      let full_cmd := sel_cmd ++ crc
      let r2 := (transceiveData (env.selectTrx cascadeLevel) full_cmd 0).res
      if !r2.status || r2.back.length < 1 then .fail .select
      else .ok cl_uid (r2.back.getD 0 0 &&& 0xFF)

/-- The UID-append loop of `readUid`: push the four masked fragment bytes,
skipping the first one when it is the cascade tag 0x88 and the level is
below 3. -/
def appendUid (uid clUid : List Nat) (cascadeLevel : Nat) : List Nat :=
  (List.range 4).foldl
    (fun acc i =>
      let byte := clUid.getD i 0 &&& 0xFF
      if i = 0 ∧ byte = 0x88 ∧ cascadeLevel < 3 then acc
      else acc ++ [byte])
    uid

/-- Result of the cascade while-loop of `readUid`: `failed` when an early
`return false` fired (with the module-state `uidBytes` and `sak` at that
moment), `finished` when the loop exited by completing the UID or running
out of levels. -/
inductive LoopResult where
  | failed (uidBytes : List Nat) (sak : Nat)
  | finished (uidBytes : List Nat) (sak : Nat)
deriving DecidableEq, Repr

/-- The cascade while-loop `while (!uidComplete && cascadeLevel < 3)` of
`readUid`, as recursion over the list of remaining levels (`[1, 2, 3]`
initially): run the level body; on failure stop with the state as is; on
success append the fragment bytes, record the SAK, and stop when SAK
bit 2 (mask 0x04) is clear, else move on to the next level. -/
def readUidLoop (env : ReadEnv) : List Nat → List Nat → Nat → LoopResult
  | [], uid, sak => .finished uid sak
  | cascadeLevel :: rest, uid, sak =>
    match cascadeStep env cascadeLevel with
    | .fail _ => .failed uid sak
    | .ok cl_uid newSak =>
      let uid2 := appendUid uid cl_uid cascadeLevel
      if newSak &&& 0x04 = 0 then .finished uid2 newSak
      else readUidLoop env rest uid2 newSak

/-- The module-level mutable state of the driver after a `readUid` call:
`uidBytes`, `uidSize`, `sak`. -/
structure RfidState where
  uidBytes : List Nat
  uidSize : Nat
  sak : Nat
deriving DecidableEq, Repr

/-- Model of `readUid()`: reset `uidBytes`, `uidSize`, `sak`, run the cascade loop;
on an early `return false` the state keeps `uidSize = 0`; on normal loop
exit set `uidSize` to the accumulated length and report success iff it is
positive. -/
def readUid (env : ReadEnv) : Bool × RfidState :=
  match readUidLoop env [1, 2, 3] [] 0 with
  | .failed uid s => (false, { uidBytes := uid, uidSize := 0, sak := s })
  | .finished uid s =>
    (decide (uid.length > 0), { uidBytes := uid, uidSize := uid.length, sak := s })

/-- Model of `getUidBytes()`, which returns `uidBytes.slice(0, uidSize)`. -/
def getUidBytes (st : RfidState) : List Nat :=
  st.uidBytes.take st.uidSize

/-- The hex digit table of the source. -/
def HEX : List String :=
  ["0", "1", "2", "3", "4", "5", "6", "7", "8", "9", "A", "B", "C", "D", "E", "F"]

/-- Model of `hexByte(v)`: two uppercase hex digits of a byte. -/
def hexByte (v : Nat) : String :=
  HEX.getD ((v >>> 4) &&& 0xF) "" ++ HEX.getD (v &&& 0xF) ""

/-- Model of `getUidHex()`: empty string when `uidBytes` is empty, else the bytes of
`uidBytes` (not limited by `uidSize`) in hex, separated by colons. -/
def getUidHex (st : RfidState) : String :=
  if st.uidBytes.length = 0 then ""
  else
    (List.range st.uidBytes.length).foldl
      (fun s i =>
        let h := hexByte (st.uidBytes.getD i 0)
        let s2 := s ++ h
        if i < st.uidBytes.length - 1 then s2 ++ ":" else s2)
      ""

/-- Model of `getAntennaGain()`: bits 6:4 of the RF configuration register. -/
def getAntennaGain (rfcfg : Nat) : Nat :=
  (rfcfg >>> 4) &&& 0x07

/-- A register write stores the value masked to a byte; a `clearBitMask`
on a byte-valued register therefore stores `old & ~mask & 0xFF`, which for
byte-sized masks equals `old &&& (0xFF ^^^ mask) &&& 0xFF`. -/
def clearBitMaskVal (v mask : Nat) : Nat :=
  (v &&& (0xFF ^^^ (mask &&& 0xFF))) &&& 0xFF

/-- A `setBitMask` on a byte-valued register stores `old | mask` masked to
a byte. -/
def setBitMaskVal (v mask : Nat) : Nat :=
  (v ||| mask) &&& 0xFF

/-- The `setAntennaGain` outcome: the RF configuration register value after the
call and the number of register writes performed. -/
structure GainOutcome where
  rfcfg : Nat
  writes : Nat
deriving DecidableEq, Repr

/-- Model of `setAntennaGain(gain)`: clamp to [0, 7]; when the current 3-bit gain
field differs from the clamped value, clear the field (bits 6:4) then set
it (two register writes); otherwise do nothing. -/
def setAntennaGain (gain : Int) (rfcfg : Nat) : GainOutcome :=
  let g := max 0 (min 7 gain)
  let gn := g.toNat
  let mask := (gn &&& 0x07) <<< 4
  if getAntennaGain rfcfg ≠ (gn &&& 0x07) then
    let r1 := clearBitMaskVal rfcfg 0x70
    let r2 := setBitMaskVal r1 mask
    { rfcfg := r2, writes := 2 }
  else { rfcfg := rfcfg, writes := 0 }

/-! Concrete chip-side environments used to exercise the model. -/

/-- A transceive environment that fires the receive interrupt at once,
reports no error, and yields exactly the given bytes from the FIFO. -/
def okTrxEnv (bytes : List Nat) : TrxEnv :=
  { comIrq := fun _ => 0x30, errorReg := 0, fifoLevel := bytes.length,
    fifoData := fun k => bytes.getD k 0, control := 0 }

/-- A transceive environment that fires the timer interrupt at once, so
the transceive fails. -/
def timerTrxEnv : TrxEnv :=
  { comIrq := fun _ => 0x01, errorReg := 0, fifoLevel := 0,
    fifoData := fun _ => 0, control := 0 }

/-- A CRC environment whose completion flag is set at once. -/
def quickCrcEnv : CrcEnv :=
  { comIrq := fun _ => 0x04, crcH := 0, crcL := 0 }

/-- Every cascade level answers the anticollision with fragment
`[1, 2, 3, 4]` and valid check byte 4, and the select with SAK 0x04,
whose bit 2 keeps the cascade going at all three levels. -/
def cascadeExhaustedEnv : ReadEnv :=
  { anticolTrx := fun _ => okTrxEnv [1, 2, 3, 4, 4],
    crcEnv := fun _ => quickCrcEnv,
    selectTrx := fun _ => okTrxEnv [0x04] }

/-- Two-level card of scenario B: level 1 yields fragment
`[0x88, 0x11, 0x22, 0x33]` (check byte 0x88) with continuing SAK 0x04,
level 2 yields `[0x44, 0x55, 0x66, 0x77]` (check byte 0x00) with final
SAK 0x00. -/
def scenarioBEnv : ReadEnv :=
  { anticolTrx := fun l =>
      if l = 1 then okTrxEnv [0x88, 0x11, 0x22, 0x33, 0x88]
      else if l = 2 then okTrxEnv [0x44, 0x55, 0x66, 0x77, 0x00]
      else timerTrxEnv,
    crcEnv := fun _ => quickCrcEnv,
    selectTrx := fun l => if l = 1 then okTrxEnv [0x04] else okTrxEnv [0x00] }

/-- Level 1 succeeds fully (fragment `[0x88, 0x11, 0x22, 0x33]`,
continuing SAK 0x04), then the level-2 anticollision times out: the read
fails after bytes were already accumulated. -/
def residualFailEnv : ReadEnv :=
  { anticolTrx := fun l =>
      if l = 1 then okTrxEnv [0x88, 0x11, 0x22, 0x33, 0x88] else timerTrxEnv,
    crcEnv := fun _ => quickCrcEnv,
    selectTrx := fun _ => okTrxEnv [0x04] }

/-- Level 1 yields fragment `[0x88, 1, 2, 3]` (check byte 0x88) but the
SAK 0x00 already reports the UID complete: the cascade tag is dropped and
only three bytes remain. -/
def shortUidEnv : ReadEnv :=
  { anticolTrx := fun l =>
      if l = 1 then okTrxEnv [0x88, 1, 2, 3, 0x88] else timerTrxEnv,
    crcEnv := fun _ => quickCrcEnv,
    selectTrx := fun _ => okTrxEnv [0x00] }

/-- Every transceive times out at once: the read fails at the very first
anticollision. -/
def timerOnlyEnv : ReadEnv :=
  { anticolTrx := fun _ => timerTrxEnv,
    crcEnv := fun _ => quickCrcEnv,
    selectTrx := fun _ => timerTrxEnv }

/-- Level 1 anticollision succeeds with 5 bytes whose check byte 0 does
not match the XOR 4 of the fragment `[1, 2, 3, 4]`. -/
def bccMismatchEnv : ReadEnv :=
  { anticolTrx := fun _ => okTrxEnv [1, 2, 3, 4, 0],
    crcEnv := fun _ => quickCrcEnv,
    selectTrx := fun _ => okTrxEnv [0x00] }

/-- Single-level card of scenario A: every level would answer the
anticollision with fragment `[0x04, 0xA1, 0xB2, 0xC3]` (check byte 0xD4)
and the select with SAK 0x08, whose bit 2 is clear, so the read completes
at level 1. -/
def scenarioAEnv : ReadEnv :=
  { anticolTrx := fun _ => okTrxEnv [0x04, 0xA1, 0xB2, 0xC3, 0xD4],
    crcEnv := fun _ => quickCrcEnv,
    selectTrx := fun _ => okTrxEnv [0x08] }

/-! Helper lemmas shared by the claim theorems. -/

theorem appendUid_eq (uid cl : List Nat) (l : Nat) :
    appendUid uid cl l =
      uid ++
        (if cl.getD 0 0 &&& 0xFF = 0x88 ∧ l < 3 then
          [cl.getD 1 0 &&& 0xFF, cl.getD 2 0 &&& 0xFF, cl.getD 3 0 &&& 0xFF]
        else
          [cl.getD 0 0 &&& 0xFF, cl.getD 1 0 &&& 0xFF, cl.getD 2 0 &&& 0xFF,
            cl.getD 3 0 &&& 0xFF]) := by
  have h4 : List.range 4 = [0, 1, 2, 3] := rfl
  unfold appendUid
  rw [h4]
  simp only [List.foldl_cons, List.foldl_nil]
  split_ifs <;> simp_all

theorem appendUid_length (uid cl : List Nat) (l : Nat) :
    (appendUid uid cl l).length =
      uid.length + (if cl.getD 0 0 &&& 0xFF = 0x88 ∧ l < 3 then 3 else 4) := by
  rw [appendUid_eq]
  split_ifs <;> simp

theorem appendUid_length_ge (uid cl : List Nat) (l : Nat) :
    uid.length + 3 ≤ (appendUid uid cl l).length := by
  rw [appendUid_length]
  split <;> omega

theorem readUid_false_getUidBytes (env : ReadEnv) (h : (readUid env).1 = false) :
    getUidBytes (readUid env).2 = [] := by
  unfold readUid at h ⊢
  cases hL : readUidLoop env [1, 2, 3] [] 0 with
  | failed uid s => rfl
  | finished uid s =>
    rw [hL] at h
    simp only [] at h
    simp only [decide_eq_false_iff_not, Nat.not_lt, Nat.le_zero] at h
    show List.take uid.length uid = []
    simp [List.length_eq_zero.mp h]

theorem readUidLoop_cons_fail (env : ReadEnv) (l : Nat) (rest uid : List Nat)
    (sak : Nat) (r : FailReason) (h : cascadeStep env l = .fail r) :
    readUidLoop env (l :: rest) uid sak = .failed uid sak := by
  simp [readUidLoop, h]

theorem readUidLoop_cons_ok (env : ReadEnv) (l : Nat) (rest uid cl : List Nat)
    (sak newSak : Nat) (h : cascadeStep env l = .ok cl newSak) :
    readUidLoop env (l :: rest) uid sak =
      (if newSak &&& 0x04 = 0 then .finished (appendUid uid cl l) newSak
       else readUidLoop env rest (appendUid uid cl l) newSak) := by
  simp [readUidLoop, h]

/-! Claim theorems. -/

/-- C6: a `transceiveData` call fails with an empty response, zero valid
bits and no FIFO read whenever the 2000-iteration poll does not end on a
receive or idle interrupt, or ends on the timer interrupt, or the error
register has a bit of mask 0x13 set; otherwise it succeeds with the
FIFO-level many bytes burst-read from the FIFO and the low 3 bits of the
control register as the valid-bit count. -/
theorem transceive_outcomes (env : TrxEnv) (send : List Nat) (txLastBits : Nat) :
    transceiveData env send txLastBits =
      (if pollIrq env.comIrq 0 2000 = PollOutcome.done ∧ env.errorReg &&& 0x13 = 0 then
        { res := { back := readFIFO env.fifoData env.fifoLevel,
                   validBits := env.control &&& 0x07, status := true },
          fifoRead := true }
      else
        { res := { back := [], validBits := 0, status := false }, fifoRead := false }) ∧
    (readFIFO env.fifoData env.fifoLevel).length = env.fifoLevel := by
  constructor
  · unfold transceiveData
    by_cases hp : pollIrq env.comIrq 0 2000 = PollOutcome.done <;>
      by_cases he : env.errorReg &&& 0x13 = 0 <;>
        simp [hp, he]
  · simp [readFIFO]

/-- C7: `calculateCRC` always returns the 2-element little-endian pair of
the CRC result registers, after at most 500 poll iterations, regardless of
whether the completion flag was observed; no failure is signaled. -/
theorem calculateCRC_always_returns_result (env : CrcEnv) (data : List Nat) :
    (calculateCRC env data).result = [env.crcL, env.crcH] ∧
    (calculateCRC env data).result.length = 2 ∧
    (calculateCRC env data).polls ≤ 500 := by
  refine ⟨rfl, rfl, ?_⟩
  have hgen : ∀ fuel k, ((crcPoll env.comIrq k fuel).1 : Nat) ≤ k + fuel := by
    intro fuel
    induction fuel with
    | zero => intro k; simp [crcPoll]
    | succ n ih =>
      intro k
      rw [show crcPoll env.comIrq k (n + 1) =
            (if env.comIrq k &&& 0x04 ≠ 0 then (k + 1, true)
             else crcPoll env.comIrq (k + 1) n) from rfl]
      split_ifs with hf
      · simp
      · have := ih (k + 1)
        omega
  have := hgen 500 0
  simpa [calculateCRC] using this

/-- C8: `isNewCardPresent` is exactly "the REQA transceive succeeded and
returned at least one byte"; in particular a successful transceive with an
empty response yields `false`. -/
theorem isNewCardPresent_iff (env : TrxEnv) :
    (isNewCardPresent env =
      ((transceiveData env [PICC_CMD_REQA] 7).res.status &&
        decide (0 < (transceiveData env [PICC_CMD_REQA] 7).res.back.length))) ∧
    (transceiveData (okTrxEnv []) [PICC_CMD_REQA] 7).res.status = true ∧
    isNewCardPresent (okTrxEnv []) = false := by
  refine ⟨rfl, by decide, by decide⟩

/-- C1 counterexample: in `cascadeExhaustedEnv` every one of the three
cascade levels completes with SAK 4, whose bit 2 (mask 0x04) is never
clear, yet `readUid` returns `true`, not `false` as claimed. -/
theorem cascadeExhausted_returns_true_cex :
    (cascadeStep cascadeExhaustedEnv 1 = .ok [1, 2, 3, 4] 4 ∧
      cascadeStep cascadeExhaustedEnv 2 = .ok [1, 2, 3, 4] 4 ∧
      cascadeStep cascadeExhaustedEnv 3 = .ok [1, 2, 3, 4] 4 ∧
      (4 : Nat) &&& 0x04 ≠ 0) ∧
    (readUid cascadeExhaustedEnv).1 = true := by
  decide

/-- C1 amended: when all three cascade levels complete without ever
observing SAK bit 2 clear, `readUid` returns `true`, because the final
`uidSize > 0` test sees the at least 9 bytes accumulated over the three
completed levels; cascade exhaustion is not treated as failure. -/
theorem readUid_cascade_exhausted_success (env : ReadEnv)
    (cl1 cl2 cl3 : List Nat) (s1 s2 s3 : Nat)
    (h1 : cascadeStep env 1 = .ok cl1 s1) (hb1 : s1 &&& 0x04 ≠ 0)
    (h2 : cascadeStep env 2 = .ok cl2 s2) (hb2 : s2 &&& 0x04 ≠ 0)
    (h3 : cascadeStep env 3 = .ok cl3 s3) (hb3 : s3 &&& 0x04 ≠ 0) :
    (readUid env).1 = true ∧ 9 ≤ (readUid env).2.uidSize := by
  have hL : readUidLoop env [1, 2, 3] [] 0 =
      .finished (appendUid (appendUid (appendUid [] cl1 1) cl2 2) cl3 3) s3 := by
    rw [readUidLoop_cons_ok env 1 [2, 3] [] cl1 0 s1 h1, if_neg hb1,
        readUidLoop_cons_ok env 2 [3] _ cl2 s1 s2 h2, if_neg hb2,
        readUidLoop_cons_ok env 3 [] _ cl3 s2 s3 h3, if_neg hb3]
    rfl
  have hlen : 9 ≤ (appendUid (appendUid (appendUid [] cl1 1) cl2 2) cl3 3).length := by
    have a1 := appendUid_length_ge [] cl1 1
    have a2 := appendUid_length_ge (appendUid [] cl1 1) cl2 2
    have a3 := appendUid_length_ge (appendUid (appendUid [] cl1 1) cl2 2) cl3 3
    simp only [List.length_nil] at a1
    omega
  unfold readUid
  rw [hL]
  refine ⟨?_, ?_⟩
  · show decide ((appendUid (appendUid (appendUid [] cl1 1) cl2 2) cl3 3).length > 0) = true
    simp only [decide_eq_true_eq]
    omega
  · show 9 ≤ (appendUid (appendUid (appendUid [] cl1 1) cl2 2) cl3 3).length
    exact hlen

/-- C1 witness: the amended statement holds at `cascadeExhaustedEnv`. -/
theorem readUid_cascade_exhausted_success_witness :
    (readUid cascadeExhaustedEnv).1 = true ∧
      9 ≤ (readUid cascadeExhaustedEnv).2.uidSize :=
  readUid_cascade_exhausted_success cascadeExhaustedEnv
    [1, 2, 3, 4] [1, 2, 3, 4] [1, 2, 3, 4] 4 4 4
    (by decide) (by decide) (by decide) (by decide) (by decide) (by decide)

/-- C4: the UID-append step of `readUid` drops a leading cascade tag 0x88
at levels below 3 and keeps it at level 3, and on the two-level scenario B
card the read yields the 7-byte UID with the tag dropped. -/
theorem cascade_tag_exclusion :
    (∀ uid cl l, l < 3 → cl.getD 0 0 &&& 0xFF = 0x88 →
        appendUid uid cl l =
          uid ++ [cl.getD 1 0 &&& 0xFF, cl.getD 2 0 &&& 0xFF, cl.getD 3 0 &&& 0xFF]) ∧
    (∀ uid cl, cl.getD 0 0 &&& 0xFF = 0x88 →
        appendUid uid cl 3 =
          uid ++ [0x88, cl.getD 1 0 &&& 0xFF, cl.getD 2 0 &&& 0xFF,
            cl.getD 3 0 &&& 0xFF]) ∧
    ((readUid scenarioBEnv).1 = true ∧
      getUidBytes (readUid scenarioBEnv).2 =
        [0x11, 0x22, 0x33, 0x44, 0x55, 0x66, 0x77]) := by
  refine ⟨?_, ?_, by decide⟩
  · intro uid cl l hl hc
    rw [appendUid_eq, if_pos ⟨hc, hl⟩]
  · intro uid cl hc
    rw [appendUid_eq, if_neg (by omega), hc]

/-- C4 witness: the two universal parts instantiated at the scenario B
level-1 fragment. -/
theorem cascade_tag_exclusion_witness :
    appendUid [] [0x88, 0x11, 0x22, 0x33] 1 = [0x11, 0x22, 0x33] ∧
    appendUid [] [0x88, 0x11, 0x22, 0x33] 3 = [0x88, 0x11, 0x22, 0x33] :=
  ⟨cascade_tag_exclusion.1 [] [0x88, 0x11, 0x22, 0x33] 1 (by decide) (by decide),
    cascade_tag_exclusion.2.1 [] [0x88, 0x11, 0x22, 0x33] (by decide)⟩

/-- C5: when the anticollision transceive of a level succeeded with at
least 5 bytes, the level fails with a check-byte mismatch exactly when the
5th byte differs from the XOR of the 4 masked fragment bytes; and a
mismatch at level 1 makes the whole `readUid` return `false`. -/
theorem bcc_validation_iff (env : ReadEnv) (l : Nat)
    (h1 : (anticolResult env l).status = true)
    (h2 : 5 ≤ (anticolResult env l).back.length) :
    (cascadeStep env l = .fail .bccMismatch ↔
      (anticolResult env l).back.getD 4 0 &&& 0xFF ≠
        bccOf ((List.range 4).map
          (fun i => (anticolResult env l).back.getD i 0 &&& 0xFF))) ∧
    (cascadeStep env 1 = .fail .bccMismatch → (readUid env).1 = false) := by
  constructor
  · simp only [cascadeStep]
    rw [if_neg (by simp only [h1, Bool.not_true, Bool.false_or,
          decide_eq_true_eq]; omega)]
    by_cases hb : (anticolResult env l).back.getD 4 0 &&& 0xFF =
        bccOf ((List.range 4).map
          (fun i => (anticolResult env l).back.getD i 0 &&& 0xFF))
    · rw [if_neg (not_not_intro hb)]
      constructor
      · intro hcontra
        split at hcontra <;> simp_all
      · intro hcontra
        exact absurd hb hcontra
    · rw [if_pos hb]
      simpa using hb
  · intro hf
    unfold readUid
    rw [readUidLoop_cons_fail env 1 [2, 3] [] 0 .bccMismatch hf]

/-- C5 witness: at `bccMismatchEnv` the check byte 0 differs from the
fragment XOR 4, the step fails with a mismatch, and the read fails. -/
theorem bcc_validation_iff_witness :
    cascadeStep bccMismatchEnv 1 = .fail .bccMismatch ∧
      (readUid bccMismatchEnv).1 = false := by
  have h := bcc_validation_iff bccMismatchEnv 1 (by decide) (by decide)
  have hm := h.1.mpr (by decide)
  exact ⟨hm, h.2 hm⟩

theorem readUid_true_getUidBytes (env : ReadEnv) (h : (readUid env).1 = true) :
    getUidBytes (readUid env).2 = (readUid env).2.uidBytes := by
  unfold readUid at h ⊢
  cases hL : readUidLoop env [1, 2, 3] [] 0 with
  | failed uid s =>
    rw [hL] at h
    simp only [] at h
    exact absurd h (by simp)
  | finished uid s =>
    show List.take uid.length uid = uid
    exact List.take_length uid

/-- C2 counterexample: in `residualFailEnv` the read fails at level 2 after
level 1 accumulated `[0x11, 0x22, 0x33]`; `getUidBytes` is empty as the
claim says, but `getUidHex` returns "11:22:33", not the empty string. -/
theorem failed_read_hex_not_empty_cex :
    (readUid residualFailEnv).1 = false ∧
      getUidBytes (readUid residualFailEnv).2 = [] ∧
      getUidHex (readUid residualFailEnv).2 = "11:22:33" ∧
      ("11:22:33" : String) ≠ "" := by
  refine ⟨by decide, by decide, by decide, by decide⟩

/-- C2 amended: a `readUid` that returns `false` leaves nothing observable
through `getUidBytes` (always the empty array), but `getUidHex` reads the
raw `uidBytes` array and can report a non-empty hex string of residual
fragment bytes from the failed attempt. -/
theorem readUid_failure_uid_queries (env : ReadEnv)
    (h : (readUid env).1 = false) :
    getUidBytes (readUid env).2 = [] ∧
      ∃ e, (readUid e).1 = false ∧ getUidHex (readUid e).2 ≠ "" := by
  exact ⟨readUid_false_getUidBytes env h, residualFailEnv, by decide, by decide⟩

/-- C2 witness: the amended statement applied to a failing read. -/
theorem readUid_failure_uid_queries_witness :
    getUidBytes (readUid bccMismatchEnv).2 = [] ∧
      ∃ e, (readUid e).1 = false ∧ getUidHex (readUid e).2 ≠ "" :=
  readUid_failure_uid_queries bccMismatchEnv (by decide)

/-- C10: after any failing `readUid` the `getUidBytes` query returns the
empty array, because `uidSize` stays 0; yet the internal `uidBytes` array
can still hold fragment bytes of earlier successful cascade levels, as
`residualFailEnv` shows concretely. -/
theorem readUid_failure_getUidBytes_empty :
    (∀ env, (readUid env).1 = false → getUidBytes (readUid env).2 = []) ∧
    ((readUid residualFailEnv).1 = false ∧
      (readUid residualFailEnv).2.uidBytes = [0x11, 0x22, 0x33] ∧
      (readUid residualFailEnv).2.uidSize = 0 ∧
      getUidBytes (readUid residualFailEnv).2 = []) := by
  exact ⟨fun env h => readUid_false_getUidBytes env h,
    by decide, by decide, by decide, by decide⟩

/-- C10 witness: the universal part applied to a concrete failing read. -/
theorem readUid_failure_getUidBytes_empty_witness :
    getUidBytes (readUid timerOnlyEnv).2 = [] :=
  readUid_failure_getUidBytes_empty.1 timerOnlyEnv (by decide)

/-- C3 counterexample: in `shortUidEnv` the read succeeds but the reported
UID has length 3, which is neither 4 nor 7 nor 10. -/
theorem short_uid_length_three_cex :
    (readUid shortUidEnv).1 = true ∧
      (getUidBytes (readUid shortUidEnv).2).length = 3 := by
  refine ⟨by decide, by decide⟩

/-- C3 amended: for a protocol-conforming card — at every completed level
the fragment starts with the cascade tag 0x88 exactly when that level has
the SAK continuation bit set and is below level 3 — every `readUid` that
returns `true` reports a UID of length exactly 4, 7 or 10. -/
theorem readUid_success_uid_length_conformant (env : ReadEnv)
    (hconf : ∀ l, 1 ≤ l → l ≤ 3 → ∀ cl s, cascadeStep env l = StepOutcome.ok cl s →
      (cl.getD 0 0 &&& 0xFF = 0x88 ↔ (s &&& 0x04 ≠ 0 ∧ l < 3)))
    (hs : (readUid env).1 = true) :
    (getUidBytes (readUid env).2).length = 4 ∨
      (getUidBytes (readUid env).2).length = 7 ∨
      (getUidBytes (readUid env).2).length = 10 := by
  rw [readUid_true_getUidBytes env hs]
  cases hL : readUidLoop env [1, 2, 3] [] 0 with
  | failed uid s =>
    exfalso
    unfold readUid at hs
    rw [hL] at hs
    simp only [] at hs
    exact absurd hs (by simp)
  | finished uid s =>
    have huid : (readUid env).2.uidBytes = uid := by
      unfold readUid
      rw [hL]
    rw [huid]
    cases h1 : cascadeStep env 1 with
    | fail r =>
      rw [readUidLoop_cons_fail env 1 [2, 3] [] 0 r h1] at hL
      exact absurd hL (by simp)
    | ok cl1 s1 =>
      have hc1 := hconf 1 (by omega) (by omega) cl1 s1 h1
      rw [readUidLoop_cons_ok env 1 [2, 3] [] cl1 0 s1 h1] at hL
      by_cases hb1 : s1 &&& 0x04 = 0
      · rw [if_pos hb1] at hL
        injection hL with hu hsk
        left
        rw [← hu, appendUid_length,
          if_neg (fun hx => (hc1.mp hx.1).1 hb1)]
        rfl
      · rw [if_neg hb1] at hL
        have hcl1 : cl1.getD 0 0 &&& 0xFF = 0x88 := hc1.mpr ⟨hb1, by omega⟩
        cases h2 : cascadeStep env 2 with
        | fail r =>
          rw [readUidLoop_cons_fail env 2 [3] (appendUid [] cl1 1) s1 r h2] at hL
          exact absurd hL (by simp)
        | ok cl2 s2 =>
          have hc2 := hconf 2 (by omega) (by omega) cl2 s2 h2
          rw [readUidLoop_cons_ok env 2 [3] (appendUid [] cl1 1) cl2 s1 s2 h2] at hL
          by_cases hb2 : s2 &&& 0x04 = 0
          · rw [if_pos hb2] at hL
            injection hL with hu hsk
            right; left
            rw [← hu, appendUid_length,
              if_neg (fun hx => (hc2.mp hx.1).1 hb2),
              appendUid_length, if_pos ⟨hcl1, by omega⟩]
            rfl
          · rw [if_neg hb2] at hL
            have hcl2 : cl2.getD 0 0 &&& 0xFF = 0x88 := hc2.mpr ⟨hb2, by omega⟩
            cases h3 : cascadeStep env 3 with
            | fail r =>
              rw [readUidLoop_cons_fail env 3 []
                (appendUid (appendUid [] cl1 1) cl2 2) s2 r h3] at hL
              exact absurd hL (by simp)
            | ok cl3 s3 =>
              rw [readUidLoop_cons_ok env 3 []
                (appendUid (appendUid [] cl1 1) cl2 2) cl3 s2 s3 h3] at hL
              rw [show readUidLoop env []
                  (appendUid (appendUid (appendUid [] cl1 1) cl2 2) cl3 3) s3 =
                  LoopResult.finished
                    (appendUid (appendUid (appendUid [] cl1 1) cl2 2) cl3 3) s3
                  from rfl, ite_self] at hL
              injection hL with hu hsk
              right; right
              rw [← hu, appendUid_length, if_neg (by omega),
                appendUid_length, if_pos ⟨hcl2, by omega⟩,
                appendUid_length, if_pos ⟨hcl1, by omega⟩]
              rfl

/-- C3 witness: the amended statement at the conforming single-level
scenario A card, whose UID has length 4. -/
theorem readUid_success_uid_length_conformant_witness :
    (getUidBytes (readUid scenarioAEnv).2).length = 4 ∨
      (getUidBytes (readUid scenarioAEnv).2).length = 7 ∨
      (getUidBytes (readUid scenarioAEnv).2).length = 10 := by
  refine readUid_success_uid_length_conformant scenarioAEnv ?_ (by decide)
  intro l hl1 hl3 cl s h
  interval_cases l <;>
    · rw [show cascadeStep scenarioAEnv _ =
          StepOutcome.ok [0x04, 0xA1, 0xB2, 0xC3] 0x08 from by decide] at h
      injection h with hcl hsv
      subst hcl
      subst hsv
      decide

set_option maxRecDepth 40000 in
theorem gain_field_after_bounded :
    ∀ vb, vb < 256 → ∀ g, g < 8 →
      ((((vb &&& 0x8F) ||| (g <<< 4)) &&& 0xFF) >>> 4) &&& 0x07 = g := by
  decide

theorem clearBitMaskVal_rx (v : Nat) :
    clearBitMaskVal v 0x70 = (v &&& 0xFF) &&& 0x8F := by
  unfold clearBitMaskVal
  rw [show (0xFF ^^^ (0x70 &&& 0xFF) : Nat) = 0x8F from by decide,
    Nat.land_assoc, Nat.land_assoc,
    show (0x8F &&& 0xFF : Nat) = 0x8F from by decide,
    show (0xFF &&& 0x8F : Nat) = 0x8F from by decide]

theorem gain_after_write (v gn : Nat) (hg : gn < 8) :
    getAntennaGain (setBitMaskVal (clearBitMaskVal v 0x70) (gn <<< 4)) = gn := by
  have hvb : v &&& 0xFF < 256 :=
    Nat.lt_of_le_of_lt Nat.and_le_right (by norm_num)
  have hb := gain_field_after_bounded (v &&& 0xFF) hvb gn hg
  unfold getAntennaGain setBitMaskVal
  rw [clearBitMaskVal_rx]
  exact hb

theorem and_seven_small : ∀ gn, gn < 8 → gn &&& 0x07 = gn := by decide

/-- C9: `setAntennaGain` performs no register writes when the stored gain
field already equals the clamped requested gain, and after any
`setAntennaGain` call a second call with the same argument performs no
register writes: the pair of calls makes at most one effective change. -/
theorem setAntennaGain_idempotent :
    (∀ gain rfcfg, getAntennaGain rfcfg = (max 0 (min 7 gain)).toNat &&& 0x07 →
        setAntennaGain gain rfcfg = { rfcfg := rfcfg, writes := 0 }) ∧
    (∀ gain rfcfg,
        (setAntennaGain gain (setAntennaGain gain rfcfg).rfcfg).writes = 0) := by
  constructor
  · intro gain rfcfg h
    simp only [setAntennaGain]
    rw [if_neg (not_not_intro h)]
  · intro gain rfcfg
    have hg : (max 0 (min 7 gain)).toNat < 8 := by omega
    by_cases hc : getAntennaGain rfcfg ≠ (max 0 (min 7 gain)).toNat &&& 0x07
    · have hinner : (setAntennaGain gain rfcfg).rfcfg =
          setBitMaskVal (clearBitMaskVal rfcfg 0x70)
            (((max 0 (min 7 gain)).toNat &&& 0x07) <<< 4) := by
        simp only [setAntennaGain]
        rw [if_pos hc]
      rw [hinner]
      have heq : getAntennaGain (setBitMaskVal (clearBitMaskVal rfcfg 0x70)
          (((max 0 (min 7 gain)).toNat &&& 0x07) <<< 4)) =
          (max 0 (min 7 gain)).toNat &&& 0x07 := by
        rw [and_seven_small _ hg]
        exact gain_after_write rfcfg (max 0 (min 7 gain)).toNat hg
      simp only [setAntennaGain]
      rw [if_neg (not_not_intro heq)]
    · have hinner : setAntennaGain gain rfcfg = { rfcfg := rfcfg, writes := 0 } := by
        simp only [setAntennaGain]
        rw [if_neg hc]
      rw [hinner]
      simp only [setAntennaGain]
      rw [if_neg hc]

/-- C9 witness: the no-write part at a register already holding gain 4,
and the twice-in-a-row part starting from a register holding gain 0. -/
theorem setAntennaGain_idempotent_witness :
    setAntennaGain 4 0x40 = { rfcfg := 0x40, writes := 0 } ∧
      (setAntennaGain 4 (setAntennaGain 4 0x00).rfcfg).writes = 0 :=
  ⟨setAntennaGain_idempotent.1 4 0x40 (by decide),
    setAntennaGain_idempotent.2 4 0x00⟩

end M5Rfid
